import Mathlib

/-!
Shallow embedding of the extraction engine of src/scraper.py (class
AdvancedJobScraper) and of the batch endpoint of src/api.py, together with
theorems settling the spec claims about them.

Modelling conventions:
- Python dict results become the ScrapeResult structure with Option fields
  (a missing dict key is none).
- The browser/network world seen by one scrape call is a Page (texts of the
  elements each CSS selector matches, in DOM order, plus the body text) and
  an Env (outcome of driver.get navigation, driver.current_url, outcome of
  the requests fetch).  A raised exception from the outside world is an
  Except.error carrying the str() of the exception.
- Python str.strip, str.lower, len and slicing are modelled on the char
  list of the string (ASCII case folding and ASCII whitespace; the
  keywords in scraper.py are already lower case, so only non-ASCII upper
  case input chars would diverge, and no theorem below depends on them).
-/

namespace Scraper

/-- ASCII whitespace characters recognised by the model of Python str.strip
and of the regex class backslash-s. -/
def isPySpace (c : Char) : Bool :=
  c = ' ' || c = '\t' || c = '\n' || c = '\r' || c = '\x0b' || c = '\x0c'

/-- Models Python str.strip() (ASCII whitespace). -/
def pyStrip (s : String) : String :=
  (((s.toList.dropWhile isPySpace).reverse.dropWhile isPySpace).reverse).asString

/-- Models Python str.lower() (ASCII case folding). -/
def pyLower (s : String) : String :=
  (s.toList.map Char.toLower).asString

/-- Models Python slicing s[:n] (by characters). -/
def pyTake (s : String) (n : Nat) : String :=
  (s.toList.take n).asString

/-- Is pat a prefix of s (by characters)? -/
def listPrefixOf : List Char → List Char → Bool
  | [], _ => true
  | _ :: _, [] => false
  | p :: ps, c :: cs => p = c && listPrefixOf ps cs

/-- Does pat occur contiguously inside s?  Models the Python substring
operator pat in s. -/
def listInfixOf (pat : List Char) : List Char → Bool
  | [] => listPrefixOf pat []
  | c :: cs => listPrefixOf pat (c :: cs) || listInfixOf pat cs

/-- Models the Python expression pat in s for strings. -/
def strContains (s pat : String) : Bool :=
  listInfixOf pat.toList s.toList

/-- Models Python " ".join(l). -/
def joinWords : List String → String
  | [] => ""
  | [s] => s
  | s :: rest => s ++ " " ++ joinWords rest

/-- The page content one scrape call can observe: for each CSS selector the
texts of the elements it matches (in DOM order; find_element takes the
head), and the full page text (driver body text / soup.get_text()). -/
structure Page where
  elems : String → List String
  bodyText : String

/-- Embeds the result dicts built throughout src/scraper.py.  A key absent
from the Python dict is none. -/
structure ScrapeResult where
  success : Bool
  portal : Option String := none
  url : Option String := none
  title : Option String := none
  company : Option String := none
  location : Option String := none
  salary : Option String := none
  requirements : Option (List String) := none
  skills : Option (List String) := none
  description : Option String := none
  experience_level : Option String := none
  raw_requirements : Option String := none
  error : Option String := none
deriving Repr, DecidableEq

/-- Characters allowed in a URL scheme by urllib.parse (letters, digits,
plus, minus, dot). -/
def schemeChar (c : Char) : Bool :=
  c.isAlpha || c.isDigit || c = '+' || c = '-' || c = '.'

/-- Models urllib.parse.urlparse(url).netloc as used by detect_portal:
strip a leading scheme, then if the remainder starts with a double slash
take the authority up to the first slash, question mark or hash.  CPython
raises ValueError "Invalid IPv6 URL" when the authority contains an
unbalanced square bracket; the error branch embeds that.  (Newer CPython
additionally validates the inside of a bracketed host; that stricter check
only raises on more inputs and is not needed by any theorem below.) -/
def urlparseNetloc (url : String) : Except String String :=
  let cs := url.toList
  let rest :=
    match cs.findIdx? (fun c => c = ':') with
    | some i =>
      if 0 < i && (cs.headD ' ').isAlpha && (cs.take i).all schemeChar then
        cs.drop (i + 1)
      else cs
    | none => cs
  match rest with
  | '/' :: '/' :: r =>
    let netloc := r.takeWhile (fun c => !(c = '/' || c = '?' || c = '#'))
    if (netloc.contains '[' && !(netloc.contains ']')) ||
       (netloc.contains ']' && !(netloc.contains '[')) then
      Except.error "Invalid IPv6 URL"
    else Except.ok netloc.asString
  | _ => Except.ok ""

/-- The portal table of AdvancedJobScraper.detect_portal, in the insertion
order of the Python dict (iteration order of a Python dict is insertion
order). -/
def portals : List (String × String) :=
  [("pracuj.pl", "pracuj"),
   ("indeed.pl", "indeed"),
   ("indeed.com", "indeed"),
   ("nofluffjobs.com", "nofluff"),
   ("justjoin.it", "justjoin"),
   ("theprotocol.it", "protocol"),
   ("bulldogjob.pl", "bulldog")]

/-- Embeds AdvancedJobScraper.detect_portal: the lowered netloc is matched
against the portal domain substrings in table order; unknown when none
matches.  The ValueError that urlparse can raise propagates (detect_portal
has no try block). -/
def detect_portal (url : String) : Except String String :=
  match urlparseNetloc url with
  | Except.error m => Except.error m
  | Except.ok netloc =>
    let domain := pyLower netloc
    match portals.find? (fun p => strContains domain p.1) with
    | some p => Except.ok p.2
    | none => Except.ok "unknown"

/-- Senior indicating terms of _extract_experience_level. -/
def seniorWords : List String :=
  ["senior", "lead", "principal", "architect", "5+ lat", "5+ years", "starszy"]

/-- Junior indicating terms of _extract_experience_level. -/
def juniorWords : List String :=
  ["junior", "intern", "trainee", "entry", "początkuj", "młodszy"]

/-- Mid indicating terms of _extract_experience_level. -/
def midWords : List String :=
  ["mid", "regular", "specjalista", "2-4 lat", "2-4 years"]

/-- Embeds AdvancedJobScraper._extract_experience_level: empty text gives
Unknown; otherwise the lowered text is searched for senior, then junior,
then mid terms, defaulting to Mid. -/
def extract_experience_level (text : String) : String :=
  if text = "" then "Unknown"
  else
    let t := pyLower text
    if seniorWords.any (fun w => strContains t w) then "Senior"
    else if juniorWords.any (fun w => strContains t w) then "Junior"
    else if midWords.any (fun w => strContains t w) then "Mid"
    else "Mid"

/-- The technology keyword lexicon returned by
AdvancedJobScraper._get_tech_keywords. -/
def tech_keywords : List String :=
  ["Python", "Java", "JavaScript", "TypeScript", "C#", "C++", "PHP", "Ruby",
   "Go", "Rust", "Kotlin",
   "React", "Angular", "Vue", "Django", "Flask", "Spring", "Node.js",
   "Express", "FastAPI",
   "MySQL", "PostgreSQL", "MongoDB", "Redis", "ElasticSearch", "SQLite",
   "Docker", "Kubernetes", "AWS", "Azure", "GCP", "Jenkins", "GitLab",
   "GitHub",
   "Git", "CI/CD", "Linux", "Ubuntu", "Nginx", "Apache",
   "Scrum", "Agile", "REST", "API", "GraphQL", "Microservices",
   "HTML", "CSS", "SASS", "Bootstrap", "Tailwind", "jQuery", "Webpack"]

/-- Embeds AdvancedJobScraper._try_selectors: take the first element the
selector matches (find_element), strip its text, return it when non-empty,
otherwise move on; a missing element (NoSuchElementException) is caught and
the loop continues. -/
def try_selectors (page : Page) : List String → Option String
  | [] => none
  | sel :: rest =>
    match (page.elems sel).head? with
    | some t =>
      let s := pyStrip t
      if s = "" then try_selectors page rest else some s
    | none => try_selectors page rest

/-- The per-element acceptance test of _extract_list_items: non-empty text
of length strictly greater than 5 and strictly less than 200. -/
def itemFilter (t : String) : Bool :=
  decide (t ≠ "" ∧ 5 < t.length ∧ t.length < 200)

/-- The stripped, filtered texts of all elements one selector matches, as
accumulated by the inner loop of _extract_list_items. -/
def selItems (page : Page) (sel : String) : List String :=
  ((page.elems sel).map pyStrip).filter itemFilter

/-- The selector loop of _extract_list_items: items accumulate across the
elements of each selector and the loop breaks as soon as items is
non-empty, so only the first selector that yields anything contributes
(the accumulator is empty until then). -/
def extractListItemsLoop (page : Page) : List String → List String → List String
  | acc, [] => acc
  | acc, sel :: rest =>
    let items := acc ++ selItems page sel
    if items.isEmpty then extractListItemsLoop page items rest else items

/-- Embeds AdvancedJobScraper._extract_list_items: the selector loop
followed by the final truncation items[:10]. -/
def extract_list_items (page : Page) (selectors : List String) : List String :=
  (extractListItemsLoop page [] selectors).take 10

/-- The per-element acceptance test of _extract_skills: non-empty text,
shorter than 50 chars, containing no digit. -/
def skillFilter (t : String) : Bool :=
  !(t == "") && decide (t.length < 50) && !(t.toList.any Char.isDigit)

/-- The selector loop of _extract_skills, breaking at the first selector
that yields anything (as in extractListItemsLoop). -/
def extractSkillsLoop (page : Page) : List String → List String → List String
  | acc, [] => acc
  | acc, sel :: rest =>
    let skills := acc ++ ((page.elems sel).map pyStrip).filter skillFilter
    if skills.isEmpty then extractSkillsLoop page skills rest else skills

/-- Models the Python expression list(set(l)).  The set drops duplicates;
its iteration order is implementation defined (hash based), so the model
fixes one concrete duplicate-free order via List.dedup.  No theorem below
depends on the particular order. -/
def pySetList (l : List String) : List String :=
  l.dedup

/-- Embeds AdvancedJobScraper._extract_skills: the selector loop, then the
keyword scan of the lowered body text appending each lexicon keyword not
already present, then list(set(...))[:15]. -/
def extract_skills (page : Page) (selectors : List String) : List String :=
  let base := extractSkillsLoop page [] selectors
  let pageText := pyLower page.bodyText
  let withKeywords := tech_keywords.foldl
    (fun acc kw =>
      if strContains pageText (pyLower kw) && !(acc.contains kw) then
        acc ++ [kw]
      else acc)
    base
  (pySetList withKeywords).take 15

/-- Embeds AdvancedJobScraper._extract_skills_from_text: keep the lexicon
keywords whose lowering occurs in the lowered text, in lexicon order,
capped at 15. -/
def extract_skills_from_text (text : String) : List String :=
  if text = "" then []
  else
    (tech_keywords.filter
      (fun sk => strContains (pyLower text) (pyLower sk))).take 15

/-- Case-insensitive literal match of pat at the head of s (ASCII folding,
as the re.IGNORECASE flag on these ASCII patterns); returns the remainder
on success. -/
def matchCIList : List Char → List Char → Option (List Char)
  | [], s => some s
  | _ :: _, [] => none
  | p :: ps, c :: cs =>
    if p.toLower = c.toLower then matchCIList ps cs else none

/-- Does one of the terminator alternatives of the requirement patterns
match at the head of s?  The alternatives, in regex order: a blank line,
a newline followed by a letter (the class [A-Z] under re.IGNORECASE), or
one of the literal trigger words.  Returns the remainder after the
terminator. -/
def matchTermAt (terms : List (List Char)) (s : List Char) : Option (List Char) :=
  match s with
  | '\n' :: '\n' :: r => some r
  | '\n' :: c :: r =>
    if c.isAlpha then some r
    else terms.findSome? (fun t => matchCIList t ('\n' :: c :: r))
  | _ => terms.findSome? (fun t => matchCIList t s)

/-- The non-greedy capture (.+?) of the requirement patterns: at least one
character, extended one character at a time until a terminator matches
(earliest terminator wins).  Fails when no terminator follows. -/
def lazyCapture (terms : List (List Char)) : List Char → Option (List Char × List Char)
  | [] => none
  | c :: cs =>
    match matchTermAt terms cs with
    | some rest => some ([c], rest)
    | none =>
      match lazyCapture terms cs with
      | some (cap, rest) => some (c :: cap, rest)
      | none => none

/-- Attempt one requirement pattern at the head of s: a trigger word
(case-insensitive), an optional colon, greedy whitespace, then the lazy
capture up to a terminator.  Models the match attempt of re.findall at one
position; the rare backtracking interaction between the greedy whitespace
and the lazy capture is not modelled (no theorem below depends on the
captured text). -/
def tryMatchAt (trigs terms : List (List Char)) (s : List Char) : Option (List Char × List Char) :=
  match trigs.findSome? (fun t => matchCIList t s) with
  | none => none
  | some afterTrig =>
    let afterColon := match afterTrig with
      | ':' :: r => r
      | r => r
    lazyCapture terms (afterColon.dropWhile isPySpace)

/-- Models re.findall for one requirement pattern: scan left to right,
emit each non-overlapping capture, resume after the full match.  The fuel
argument (instantiated with the text length) bounds the recursion; every
step consumes at least one character, so it never runs out. -/
def findallReq (trigs terms : List (List Char)) : Nat → List Char → List (List Char)
  | 0, _ => []
  | _ + 1, [] => []
  | fuel + 1, c :: cs =>
    match tryMatchAt trigs terms (c :: cs) with
    | some (cap, rest) => cap :: findallReq trigs terms fuel rest
    | none => findallReq trigs terms fuel cs

/-- Is c one of the delimiter characters of the split regex of
_extract_requirements_from_text (comma, semicolon, bullet, minus,
newline)? -/
def isReqDelim (c : Char) : Bool :=
  c = ',' || c = ';' || c = '•' || c = '-' || c = '\n'

/-- Models re.split on one delimiter character followed by a greedy
whitespace run.  The skip flag records being inside the whitespace run
that follows a delimiter. -/
def splitReqsLoop : Bool → List Char → List Char → List (List Char)
  | _, cur, [] => [cur.reverse]
  | skip, cur, c :: cs =>
    if skip && isPySpace c then splitReqsLoop true cur cs
    else if isReqDelim c then cur.reverse :: splitReqsLoop true [] cs
    else splitReqsLoop false (c :: cur) cs

/-- The per-candidate acceptance test of _extract_requirements_from_text:
non-empty after strip, length strictly between 10 and 150. -/
def reqFilter (r : String) : Bool :=
  decide (r ≠ "" ∧ 10 < r.length ∧ r.length < 150)

/-- The three (trigger words, extra terminator words) pairs of the regex
patterns of _extract_requirements_from_text.  The alternation
requirements? is expanded into its two literals, longer first, matching
the greedy optional s. -/
def reqPatterns : List (List String × List String) :=
  [(["wymagania", "requirements", "requirement", "must have", "essential"],
    ["oferujemy", "we offer", "benefits"]),
   (["potrzebne", "needed", "required"], ["oferujemy"]),
   (["oczekujemy", "expect", "looking for"], ["oferujemy"])]

/-- Embeds AdvancedJobScraper._extract_requirements_from_text: for each
pattern, findall over the text, split each match on the delimiter regex,
strip, keep candidates of plausible length, and cap the combined list at
10. -/
def extract_requirements_from_text (text : String) : List String :=
  if text = "" then []
  else
    let cs := text.toList
    let requirements :=
      (reqPatterns.map (fun pat =>
        ((findallReq (pat.1.map String.toList) (pat.2.map String.toList)
            cs.length cs).map (fun m =>
          ((splitReqsLoop false [] m).map
            (fun r => pyStrip r.asString)).filter reqFilter)).flatten)).flatten
    requirements.take 10

/-- The selector of the title wait of _scrape_pracuj_selenium. -/
def pracujTitleWaitSelector : String := "[data-test=\"text-offerTitle\"], h1"

/-- The fallback title selectors of _scrape_pracuj_selenium. -/
def pracujTitleSelectors : List String :=
  ["h1", ".offer-title", "[data-test*=\"title\"]"]

/-- The company selectors of _scrape_pracuj_selenium. -/
def pracujCompanySelectors : List String :=
  ["[data-test=\"text-employer\"]", ".company-name", "[data-test*=\"company\"]", "h2"]

/-- The location selectors of _scrape_pracuj_selenium. -/
def pracujLocationSelectors : List String :=
  ["[data-test=\"text-workingPlace\"]", ".location", "[data-test*=\"location\"]"]

/-- The requirements selectors of _scrape_pracuj_selenium. -/
def pracujReqSelectors : List String :=
  ["[data-test=\"section-requirements\"] li", ".requirements li",
   ".requirement-item", "[data-test*=\"requirement\"] li"]

/-- The skill selectors of _scrape_pracuj_selenium. -/
def pracujSkillSelectors : List String :=
  ["[data-test=\"chip-item\"]", ".skill-tag", ".technology-tag", ".badge"]

/-- The description selectors of _scrape_pracuj_selenium. -/
def pracujDescSelectors : List String :=
  ["[data-test=\"section-responsibilities\"]", ".job-description",
   ".offer-description", "[data-test*=\"description\"]"]

/-- The salary selectors of _scrape_pracuj_selenium. -/
def pracujSalarySelectors : List String :=
  ["[data-test*=\"salary\"]", ".salary", ".wage", "[data-test*=\"wage\"]"]

/-- Embeds AdvancedJobScraper._scrape_pracuj_selenium.  The title wait
falls back to _try_selectors on timeout (missing element); every other
field falls back to its sentinel; the function always returns
success true (the enclosing except only fires for exceptions no field
lookup raises, since _try_selectors, find_elements and the body element
lookup do not raise in this page model). -/
def scrape_pracuj_selenium (page : Page) (currentUrl : String) : ScrapeResult :=
  let title :=
    match (page.elems pracujTitleWaitSelector).head? with
    | some t => pyStrip t
    | none => (try_selectors page pracujTitleSelectors).getD "N/A"
  let company := (try_selectors page pracujCompanySelectors).getD "N/A"
  let location := (try_selectors page pracujLocationSelectors).getD "N/A"
  let requirements := extract_list_items page pracujReqSelectors
  let skills := extract_skills page pracujSkillSelectors
  let description := (try_selectors page pracujDescSelectors).getD ""
  let salary := (try_selectors page pracujSalarySelectors).getD "N/A"
  let experience := extract_experience_level (title ++ " " ++ joinWords requirements)
  { success := true,
    portal := some "pracuj",
    url := some currentUrl,
    title := some title,
    company := some company,
    location := some location,
    salary := some salary,
    requirements := some (requirements.take 10),
    skills := some (skills.take 15),
    description := some (pyTake description 1500),
    experience_level := some experience,
    raw_requirements := some (joinWords requirements) }

/-- Models the str() of the selenium TimeoutException raised by a failed
wait.until (the exact text is irrelevant to every theorem below; only its
presence matters). -/
def timeoutMessage : String := "Message: timed out waiting for element"

/-- Models the str() of the selenium NoSuchElementException raised by a
failed find_element. -/
def noSuchElementMessage (sel : String) : String :=
  "no such element: Unable to locate element: " ++ sel

/-- The title wait selector of _scrape_nofluff_selenium. -/
def nofluffTitleSelector : String := "h1, .posting-details-title"

/-- The company selector of _scrape_nofluff_selenium. -/
def nofluffCompanySelector : String := ".company-name, .posting-details-company"

/-- The salary selector of _scrape_nofluff_selenium. -/
def nofluffSalarySelector : String := ".posting-salary, .salary-range"

/-- Embeds AdvancedJobScraper._scrape_nofluff_selenium.  Unlike the pracuj
strategy, the title wait and the find_element calls for company and salary
are not guarded, so a missing element raises and the enclosing except
returns a failure dict carrying str(e).  The requirements and skills lists
are forwarded without any cap or deduplication. -/
def scrape_nofluff_selenium (page : Page) (currentUrl : String) : ScrapeResult :=
  match (page.elems nofluffTitleSelector).head? with
  | none => { success := false, error := some timeoutMessage }
  | some t0 =>
    let title := pyStrip t0
    match (page.elems nofluffCompanySelector).head? with
    | none =>
      { success := false, error := some (noSuchElementMessage nofluffCompanySelector) }
    | some c0 =>
      let company := pyStrip c0
      let skills := ((page.elems ".posting-technologies .technology").map pyStrip).filter
        (fun t => !(t == ""))
      let requirements := ((page.elems ".posting-requirements li").map pyStrip).filter
        (fun t => !(t == ""))
      match (page.elems nofluffSalarySelector).head? with
      | none =>
        { success := false, error := some (noSuchElementMessage nofluffSalarySelector) }
      | some s0 =>
        let salary := pyStrip s0
        let experience := extract_experience_level title
        { success := true,
          portal := some "nofluff",
          url := some currentUrl,
          title := some title,
          company := some company,
          location := some "Remote/Warsaw",
          salary := some salary,
          requirements := some requirements,
          skills := some skills,
          description := some (joinWords requirements),
          experience_level := some experience }

/-- The generic title selectors of _extract_generic_info. -/
def genericTitleSelectors : List String :=
  ["h1", "[data-test*=\"title\"]", ".job-title", ".offer-title"]

/-- The title loop of _extract_generic_info: first selector whose first
matching element has non-empty stripped text wins; sentinel N/A
otherwise. -/
def firstNonEmptySelect (page : Page) : List String → String
  | [] => "N/A"
  | sel :: rest =>
    match (page.elems sel).head? with
    | some t => if pyStrip t = "" then firstNonEmptySelect page rest else pyStrip t
    | none => firstNonEmptySelect page rest

/-- Embeds AdvancedJobScraper._extract_generic_info.  The body is total in
this model, so the enclosing except branch (which would return a failure
dict) is unreachable and success is always true, whether or not a title
was found. -/
def extract_generic_info (soup : Page) (url portal : String) : ScrapeResult :=
  let title := firstNonEmptySelect soup genericTitleSelectors
  let pageText := soup.bodyText
  let skills := extract_skills_from_text pageText
  let requirements := extract_requirements_from_text pageText
  let experience := extract_experience_level (title ++ " " ++ pyTake pageText 1000)
  { success := true,
    portal := some portal,
    url := some url,
    title := some title,
    company := some "N/A",
    location := some "N/A",
    salary := some "N/A",
    requirements := some requirements,
    skills := some skills,
    description := some (pyTake pageText 1000),
    experience_level := some experience,
    raw_requirements := some (joinWords requirements) }

/-- The scraper-instance state set up by AdvancedJobScraper.__init__ and
_setup_selenium: the use_selenium flag and the driver handle (none when no
driver was created). -/
structure ScraperState where
  use_selenium : Bool
  driver : Option Unit
deriving Repr, DecidableEq

/-- Embeds AdvancedJobScraper.__init__ together with _setup_selenium:
when use_selenium is requested, a failed webdriver.Chrome creation is
caught, use_selenium is reset to false and driver stays None; otherwise
the driver handle is stored. -/
def init_scraper (use_selenium : Bool) (driverStart : Except String Unit) : ScraperState :=
  if use_selenium then
    match driverStart with
    | Except.ok _ => { use_selenium := true, driver := some () }
    | Except.error _ => { use_selenium := false, driver := none }
  else { use_selenium := use_selenium, driver := none }

/-- The outside world one scrape call observes: the outcome of driver.get
plus the settle sleep (the rendered page, or the str() of the raised
exception), driver.current_url after the load, and the outcome of the
requests fetch (the parsed static page, or the str() of the exception
raised by the delay, session.get, raise_for_status or the parse). -/
structure Env where
  navigation : Except String Page
  currentUrl : String
  fetch : Except String Page

/-- Models the str() of the AttributeError raised at the dispatch
self._scrape_justjoin_selenium(): that method is not defined anywhere in
src/scraper.py, so the attribute lookup raises and the enclosing except of
scrape_with_selenium catches it.  (Quotes of the Python message are
omitted.) -/
def justjoinAttributeError : String :=
  "AdvancedJobScraper object has no attribute _scrape_justjoin_selenium"

/-- Embeds AdvancedJobScraper.scrape_with_selenium: no driver gives the
literal failure dict; a navigation exception is caught into a failure
dict; otherwise the portal strategies are dispatched, the justjoin
dispatch raising AttributeError (caught into a failure dict), and any
other portal falling through to the generic extraction of the page
source. -/
def scrape_with_selenium (st : ScraperState) (env : Env) (url portal : String) : ScrapeResult :=
  match st.driver with
  | none => { success := false, error := some "Selenium not available" }
  | some _ =>
    match env.navigation with
    | Except.error m => { success := false, error := some m }
    | Except.ok page =>
      if portal == "pracuj" then scrape_pracuj_selenium page env.currentUrl
      else if portal == "nofluff" then scrape_nofluff_selenium page env.currentUrl
      else if portal == "justjoin" then
        { success := false, error := some justjoinAttributeError }
      else extract_generic_info page url portal

/-- Embeds AdvancedJobScraper._scrape_with_requests: a raised exception is
caught into a failure dict carrying str(e) plus portal and url; a fetched
page goes through the generic extractor. -/
def scrape_with_requests (fetch : Except String Page) (url portal : String) : ScrapeResult :=
  match fetch with
  | Except.error m =>
    { success := false, error := some m, portal := some portal, url := some url }
  | Except.ok soup => extract_generic_info soup url portal

/-- Embeds AdvancedJobScraper.scrape_job: detect the portal (the ValueError
of urlparse propagates, nothing guards it), try selenium for the three
selenium portals, fall back to requests when that fails or does not
apply. -/
def scrape_job (st : ScraperState) (env : Env) (url : String) : Except String ScrapeResult :=
  match detect_portal url with
  | Except.error m => Except.error m
  | Except.ok portal =>
    if st.use_selenium &&
        (portal == "pracuj" || portal == "nofluff" || portal == "justjoin") then
      let result := scrape_with_selenium st env url portal
      if result.success then Except.ok result
      else Except.ok (scrape_with_requests env.fetch url portal)
    else Except.ok (scrape_with_requests env.fetch url portal)

/-- Embeds AdvancedJobScraper.batch_scrape: a plain loop appending each
scrape_job result.  Nothing guards scrape_job here, so an exception it
raises aborts the whole loop and all collected results are lost (the
Except.error propagates). -/
def batch_scrape (st : ScraperState) : List (String × Env) → Except String (List ScrapeResult)
  | [] => Except.ok []
  | job :: rest =>
    match scrape_job st job.2 job.1 with
    | Except.error m => Except.error m
    | Except.ok r =>
      match batch_scrape st rest with
      | Except.error m => Except.error m
      | Except.ok rs => Except.ok (r :: rs)

/-- Embeds the JobData pydantic model of src/api.py (the scraped_at
timestamp, a wall-clock value, is omitted from the model). -/
structure JobData where
  success : Bool
  portal : String
  url : String
  title : String
  company : String
  location : String
  salary : Option String
  requirements : List String
  skills : List String
  description : String
  experience_level : String
deriving Repr, DecidableEq

/-- Embeds create_job_data of src/api.py: each field read with .get and
its default. -/
def create_job_data (r : ScrapeResult) : JobData :=
  { success := r.success,
    portal := r.portal.getD "unknown",
    url := r.url.getD "",
    title := r.title.getD "N/A",
    company := r.company.getD "N/A",
    location := r.location.getD "N/A",
    salary := r.salary,
    requirements := r.requirements.getD [],
    skills := r.skills.getD [],
    description := r.description.getD "",
    experience_level := r.experience_level.getD "Unknown" }

/-- One entry of the batch endpoint response: either the JobData of a task
that returned, or the error dict built for a task whose pipeline raised
(success false, the input url, str of the exception). -/
inductive BatchEntry where
  | data (jd : JobData)
  | failure (url : String) (errMsg : String)
deriving Repr, DecidableEq

/-- The per-task work of batch_scrape_jobs in src/api.py: run scrape_job,
convert a returned dict via create_job_data, convert a raised exception
into the failure entry at the same index (asyncio.gather with
return_exceptions true keeps task order and isolates failures). -/
def processSingle (st : ScraperState) (job : String × Env) : BatchEntry :=
  match scrape_job st job.2 job.1 with
  | Except.ok r => BatchEntry.data (create_job_data r)
  | Except.error m => BatchEntry.failure job.1 m

/-- Embeds the batch_scrape_jobs endpoint of src/api.py: reject batches of
more than 20 URLs, otherwise process every URL independently, in input
order.  The semaphore bounding concurrency does not affect the value of
the result list and is elided. -/
def batch_scrape_jobs (st : ScraperState) (jobs : List (String × Env)) : Except String (List BatchEntry) :=
  if jobs.length > 20 then Except.error "Maximum 20 URLs per batch"
  else Except.ok (jobs.map (processSingle st))

/-! ## Shared helper lemmas and concrete fixtures -/

/-- The content fields of a ScrapeResult (in the sense of claim C1) are all
absent. -/
def contentAbsent (r : ScrapeResult) : Prop :=
  r.title = none ∧ r.company = none ∧ r.location = none ∧ r.salary = none ∧
  r.requirements = none ∧ r.skills = none ∧ r.description = none ∧
  r.experience_level = none

/-- When the URL parses, detect_portal returns some portal id and never
propagates an exception. -/
lemma detect_portal_isOk (url netloc : String)
    (h : urlparseNetloc url = Except.ok netloc) :
    ∃ portal, detect_portal url = Except.ok portal := by
  rcases hf : portals.find? (fun p => strContains (pyLower netloc) p.1) with _ | p
  · exact ⟨"unknown", by simp [detect_portal, h, hf]⟩
  · exact ⟨p.2, by simp [detect_portal, h, hf]⟩

/-- The pracuj strategy always reports success (every field lookup has a
sentinel fallback and nothing in its body raises in this page model). -/
lemma scrape_pracuj_selenium_success (page : Page) (curl : String) :
    (scrape_pracuj_selenium page curl).success = true := rfl

/-- The generic extractor always reports success, whether or not a title
was found. -/
lemma extract_generic_info_success (soup : Page) (url portal : String) :
    (extract_generic_info soup url portal).success = true := rfl

/-- A nofluff strategy call that reports failure carries an error message
and no content fields. -/
lemma scrape_nofluff_selenium_fail (page : Page) (curl : String) :
    (scrape_nofluff_selenium page curl).success = false →
    (scrape_nofluff_selenium page curl).error.isSome = true ∧
      contentAbsent (scrape_nofluff_selenium page curl) := by
  rcases h1 : (page.elems nofluffTitleSelector).head? with _ | t0
  · simp [scrape_nofluff_selenium, h1, contentAbsent]
  · rcases h2 : (page.elems nofluffCompanySelector).head? with _ | c0
    · simp [scrape_nofluff_selenium, h1, h2, contentAbsent]
    · rcases h3 : (page.elems nofluffSalarySelector).head? with _ | s0
      · simp [scrape_nofluff_selenium, h1, h2, h3, contentAbsent]
      · simp [scrape_nofluff_selenium, h1, h2, h3]

/-- The technology keyword lexicon contains no duplicate entry. -/
lemma tech_keywords_nodup : tech_keywords.Nodup := by decide

/-- The output of _extract_skills is duplicate free (it goes through
list(set(...))). -/
lemma extract_skills_nodup (page : Page) (sels : List String) :
    (extract_skills page sels).Nodup := by
  simp only [extract_skills, pySetList]
  exact List.Nodup.sublist (List.take_sublist _ _) (List.nodup_dedup _)

/-- The output of _extract_skills_from_text is duplicate free (a filtered
sublist of the duplicate-free lexicon). -/
lemma extract_skills_from_text_nodup (text : String) :
    (extract_skills_from_text text).Nodup := by
  unfold extract_skills_from_text
  split
  · exact List.nodup_nil
  · exact List.Nodup.sublist (List.take_sublist _ _)
      (List.Nodup.filter _ tech_keywords_nodup)

/-- The selector loop of _extract_list_items started on the empty
accumulator returns exactly the items of the first selector that yields
any, and nothing from later selectors. -/
lemma extractListItemsLoop_nil_eq (page : Page) (sels : List String) :
    extractListItemsLoop page [] sels =
      ((sels.map (selItems page)).filter (fun l => !l.isEmpty)).headD [] := by
  induction sels with
  | nil => rfl
  | cons sel rest ih =>
    cases hsel : selItems page sel with
    | nil => simp [extractListItemsLoop, hsel, ih]
    | cons x xs => simp [extractListItemsLoop, hsel]

/-- Every string the selector loop of _extract_list_items returns passed
the item filter. -/
lemma mem_extractListItemsLoop (page : Page) :
    ∀ (sels : List String) (acc : List String) (t : String),
      (∀ u ∈ acc, itemFilter u = true) →
      t ∈ extractListItemsLoop page acc sels → itemFilter t = true := by
  intro sels
  induction sels with
  | nil => intro acc t hacc ht; exact hacc t ht
  | cons sel rest ih =>
    intro acc t hacc ht
    have hall : ∀ u ∈ acc ++ selItems page sel, itemFilter u = true := by
      intro u hu
      rcases List.mem_append.mp hu with h | h
      · exact hacc u h
      · simp only [selItems, List.mem_filter] at h
        exact h.2
    by_cases h : (acc ++ selItems page sel).isEmpty = true
    · rw [extractListItemsLoop, if_pos h] at ht
      exact ih _ t hall ht
    · rw [extractListItemsLoop, if_neg h] at ht
      exact hall t ht

/-- A page with no elements at all (every selector matches nothing). -/
def emptyPage : Page := { elems := fun _ => [], bodyText := "" }

/-- A page whose static HTML contains one h1 element with a title. -/
def pageH1 : Page :=
  { elems := fun s => if s = "h1" then ["Senior Python Developer"] else [],
    bodyText := "" }

/-- A nofluff page carrying eleven non-empty requirement bullets. -/
def pageNofluffMany : Page :=
  { elems := fun s =>
      if s = "h1, .posting-details-title" then ["Backend Developer"]
      else if s = ".company-name, .posting-details-company" then ["Acme"]
      else if s = ".posting-requirements li" then
        ["r01", "r02", "r03", "r04", "r05", "r06", "r07", "r08", "r09",
         "r10", "r11"]
      else if s = ".posting-salary, .salary-range" then ["10000 PLN"]
      else [],
    bodyText := "" }

/-- A pracuj page whose requirement list contains the same bullet twice. -/
def pageDupReq : Page :=
  { elems := fun s =>
      if s = "[data-test=\"section-requirements\"] li" then
        ["duplicate requirement", "duplicate requirement"]
      else [],
    bodyText := "" }

/-- A pracuj page whose first requirement selector yields one six character
text. -/
def pageSixChar : Page :=
  { elems := fun s =>
      if s = "[data-test=\"section-requirements\"] li" then ["abcdef"]
      else [],
    bodyText := "" }

/-- An environment where both navigation and the plain fetch raise. -/
def envDead : Env :=
  { navigation := Except.error "nav failed",
    currentUrl := "cu",
    fetch := Except.error "connection refused" }

/-- A scraper state with a live driver. -/
def stDriver : ScraperState := { use_selenium := true, driver := some () }

/-- A scraper state without a driver. -/
def stNoDriver : ScraperState := { use_selenium := false, driver := none }

/-- The batch job used by the concrete witnesses. -/
def jobW : String × Env := ("https://example.com/a", envDead)

/-! ## Claim C1 -/

/-- Claim C1, counterexample: the requests fallback copies str(e) of the
caught exception verbatim into the error field, so an exception whose
message is empty (for example one raised as Exception()) yields a
success false result whose error is the empty string, refuting the claim
that the error field is always non-empty. -/
theorem c1_counterexample :
    (scrape_with_requests (Except.error "") "http://example.com/job" "unknown").success = false ∧
    (scrape_with_requests (Except.error "") "http://example.com/job" "unknown").error = some "" :=
  ⟨rfl, rfl⟩

/-- Claim C1, amended: every success false result of the selenium stage or
the requests fallback carries an error field (present, equal to the caught
exception message or to the hard-coded literal, though not necessarily
non-empty) and all eight content fields are absent. -/
theorem c1_amended (st : ScraperState) (env : Env) (fetch : Except String Page)
    (url portal : String) :
    ((scrape_with_selenium st env url portal).success = false →
      (scrape_with_selenium st env url portal).error.isSome = true ∧
      contentAbsent (scrape_with_selenium st env url portal)) ∧
    ((scrape_with_requests fetch url portal).success = false →
      (scrape_with_requests fetch url portal).error.isSome = true ∧
      contentAbsent (scrape_with_requests fetch url portal)) := by
  constructor
  · rcases hd : st.driver with _ | d
    · intro _
      constructor
      · simp [scrape_with_selenium, hd]
      · simp [scrape_with_selenium, hd, contentAbsent]
    · rcases hn : env.navigation with m | page
      · intro _
        constructor
        · simp [scrape_with_selenium, hd, hn]
        · simp [scrape_with_selenium, hd, hn, contentAbsent]
      · by_cases hp : portal = "pracuj"
        · intro hfail
          have heq : scrape_with_selenium st env url portal =
              scrape_pracuj_selenium page env.currentUrl := by
            simp [scrape_with_selenium, hd, hn, hp]
          rw [heq, scrape_pracuj_selenium_success] at hfail
          simp at hfail
        · by_cases hnf : portal = "nofluff"
          · intro hfail
            have heq : scrape_with_selenium st env url portal =
                scrape_nofluff_selenium page env.currentUrl := by
              simp [scrape_with_selenium, hd, hn, hp, hnf]
            rw [heq] at hfail ⊢
            exact scrape_nofluff_selenium_fail _ _ hfail
          · by_cases hj : portal = "justjoin"
            · intro _
              have heq : scrape_with_selenium st env url portal =
                  { success := false, error := some justjoinAttributeError } := by
                simp [scrape_with_selenium, hd, hn, hp, hnf, hj]
              rw [heq]
              exact ⟨rfl, by simp [contentAbsent]⟩
            · intro hfail
              have heq : scrape_with_selenium st env url portal =
                  extract_generic_info page url portal := by
                simp [scrape_with_selenium, hd, hn, hp, hnf, hj]
              rw [heq, extract_generic_info_success] at hfail
              simp at hfail
  · rcases hf : fetch with m | soup
    · intro _
      constructor
      · simp [scrape_with_requests, hf]
      · simp [scrape_with_requests, hf, contentAbsent]
    · intro hfail
      have heq : scrape_with_requests (Except.ok soup) url portal =
          extract_generic_info soup url portal := rfl
      rw [heq, extract_generic_info_success] at hfail
      simp at hfail

/-- Claim C1, witness: the amended theorem applied to the hard-coded
no-driver failure. -/
theorem c1_witness :
    (scrape_with_selenium stNoDriver envDead "http://u" "pracuj").error.isSome = true ∧
    contentAbsent (scrape_with_selenium stNoDriver envDead "http://u" "pracuj") :=
  (c1_amended stNoDriver envDead (Except.error "boom") "http://u" "pracuj").1 (by rfl)

/-! ## Claim C2 -/

/-- Claim C2, counterexample: the nofluff strategy forwards its lists with
no cap and no deduplication, so eleven requirement bullets survive into
the success result; and the pracuj path keeps a duplicated requirement
bullet because _extract_list_items never deduplicates. -/
theorem c2_counterexample :
    (scrape_nofluff_selenium pageNofluffMany "u").success = true ∧
    ((scrape_nofluff_selenium pageNofluffMany "u").requirements.getD []).length = 11 ∧
    ((scrape_pracuj_selenium pageDupReq "u").requirements.getD []) =
      ["duplicate requirement", "duplicate requirement"] ∧
    ¬ ((scrape_pracuj_selenium pageDupReq "u").requirements.getD []).Nodup := by
  refine ⟨rfl, rfl, rfl, ?_⟩
  decide

/-- The requirements field of a pracuj result. -/
lemma pracuj_requirements_eq (page : Page) (curl : String) :
    (scrape_pracuj_selenium page curl).requirements =
      some ((extract_list_items page pracujReqSelectors).take 10) := rfl

/-- The skills field of a pracuj result. -/
lemma pracuj_skills_eq (page : Page) (curl : String) :
    (scrape_pracuj_selenium page curl).skills =
      some ((extract_skills page pracujSkillSelectors).take 15) := rfl

/-- The requirements field of a generic result. -/
lemma generic_requirements_eq (page : Page) (url portal : String) :
    (extract_generic_info page url portal).requirements =
      some (extract_requirements_from_text page.bodyText) := rfl

/-- The skills field of a generic result. -/
lemma generic_skills_eq (page : Page) (url portal : String) :
    (extract_generic_info page url portal).skills =
      some (extract_skills_from_text page.bodyText) := rfl

/-- Claim C2, amended: on the pracuj selenium path and on the generic
path, skills are capped at 15 and duplicate free and requirements are
capped at 10 (requirements may contain duplicates, and the nofluff path
forwards both lists uncapped and undeduplicated, as the counterexample
shows; the pracuj skill deduplication goes through a Python set, whose
iteration order is unspecified). -/
theorem c2_amended (page : Page) (curl url portal : String) :
    ((scrape_pracuj_selenium page curl).requirements.getD []).length ≤ 10 ∧
    ((scrape_pracuj_selenium page curl).skills.getD []).length ≤ 15 ∧
    ((scrape_pracuj_selenium page curl).skills.getD []).Nodup ∧
    ((extract_generic_info page url portal).requirements.getD []).length ≤ 10 ∧
    ((extract_generic_info page url portal).skills.getD []).length ≤ 15 ∧
    ((extract_generic_info page url portal).skills.getD []).Nodup := by
  refine ⟨?_, ?_, ?_, ?_, ?_, ?_⟩
  · rw [pracuj_requirements_eq]
    simp only [Option.getD_some, List.length_take]
    omega
  · rw [pracuj_skills_eq]
    simp only [Option.getD_some, List.length_take]
    omega
  · rw [pracuj_skills_eq]
    simp only [Option.getD_some]
    exact List.Nodup.sublist (List.take_sublist _ _) (extract_skills_nodup _ _)
  · rw [generic_requirements_eq]
    simp only [Option.getD_some]
    unfold extract_requirements_from_text
    split
    · simp
    · simp only [List.length_take]
      omega
  · rw [generic_skills_eq]
    simp only [Option.getD_some]
    unfold extract_skills_from_text
    split
    · simp
    · simp only [List.length_take]
      omega
  · rw [generic_skills_eq]
    simp only [Option.getD_some]
    exact extract_skills_from_text_nodup _

/-! ## Claim C3 -/

/-- Claim C3, counterexample: the classifier returns Unknown, not Mid, on
the empty text (the guard if not text fires before any keyword set is
consulted). -/
theorem c3_counterexample :
    extract_experience_level "" = "Unknown" ∧
    ¬ extract_experience_level "" = "Mid" := by decide

/-- Claim C3, amended: the classifier is pure with strict priority Senior
first; any non-empty text containing a senior term maps to Senior (so a
text with both senior and junior terms maps to Senior), any non-empty
text containing no recognized term maps to Mid, and the empty text maps
to Unknown rather than Mid. -/
theorem c3_amended :
    extract_experience_level "" = "Unknown" ∧
    ∀ t : String, t ≠ "" →
      ((seniorWords.any (fun w => strContains (pyLower t) w) = true →
          extract_experience_level t = "Senior") ∧
       (seniorWords.any (fun w => strContains (pyLower t) w) = false →
        juniorWords.any (fun w => strContains (pyLower t) w) = false →
        midWords.any (fun w => strContains (pyLower t) w) = false →
          extract_experience_level t = "Mid")) := by
  refine ⟨rfl, ?_⟩
  intro t ht
  unfold extract_experience_level
  rw [if_neg ht]
  constructor
  · intro hs
    simp [hs]
  · intro hs hj hm
    simp [hs, hj, hm]

/-- Claim C3, witness: a text containing both a senior and a junior term
classifies as Senior. -/
theorem c3_witness : extract_experience_level "senior or junior devs" = "Senior" :=
  (c3_amended.2 "senior or junior devs" (by decide)).1 (by decide)

/-! ## Claim C4 -/

/-- Claim C4, counterexample: detect_portal propagates the ValueError of
urlparse on a URL whose authority has an unbalanced square bracket,
instead of treating the malformed URL as unknown. -/
theorem c4_counterexample :
    detect_portal "http://[" = Except.error "Invalid IPv6 URL" ∧
    detect_portal "http://[" ≠ Except.ok "unknown" := by
  refine ⟨rfl, ?_⟩
  intro h
  have h2 : (Except.error "Invalid IPv6 URL" : Except String String) =
      Except.ok "unknown" := by
    rw [← h]
    rfl
  exact absurd h2 (by simp)

/-- Claim C4, amended: for every URL whose authority parses (balanced
brackets), detect_portal returns the portal id of a table entry whose
domain is a substring of the lowered host when one exists, and unknown
otherwise; only URLs with an unbalanced square bracket in the authority
raise (the counterexample). -/
theorem c4_amended (url netloc : String)
    (h : urlparseNetloc url = Except.ok netloc) :
    (∃ dom pid, (dom, pid) ∈ portals ∧
        strContains (pyLower netloc) dom = true ∧
        detect_portal url = Except.ok pid) ∨
    ((∀ dom pid, (dom, pid) ∈ portals →
        strContains (pyLower netloc) dom = false) ∧
      detect_portal url = Except.ok "unknown") := by
  rcases hf : portals.find? (fun p => strContains (pyLower netloc) p.1) with _ | p
  · right
    constructor
    · intro dom pid hmem
      have := List.find?_eq_none.mp hf (dom, pid) hmem
      simpa using this
    · simp [detect_portal, h, hf]
  · left
    obtain ⟨dom, pid⟩ := p
    refine ⟨dom, pid, List.mem_of_find?_eq_some hf, ?_, ?_⟩
    · simpa using List.find?_some hf
    · simp [detect_portal, h, hf]

/-- Claim C4, witness: the amended theorem applied to a pracuj URL. -/
theorem c4_witness :
    (∃ dom pid, (dom, pid) ∈ portals ∧
        strContains (pyLower "pracuj.pl") dom = true ∧
        detect_portal "https://pracuj.pl/praca/x" = Except.ok pid) ∨
    ((∀ dom pid, (dom, pid) ∈ portals →
        strContains (pyLower "pracuj.pl") dom = false) ∧
      detect_portal "https://pracuj.pl/praca/x" = Except.ok "unknown") :=
  c4_amended "https://pracuj.pl/praca/x" "pracuj.pl" (by rfl)

/-! ## Claim C5 -/

/-- Claim C5, counterexample: the engine level batch_scrape has no guard
around scrape_job, so a URL whose parse raises aborts the whole batch
(the two element input produces an error, not a two element result
list). -/
theorem c5_counterexample :
    batch_scrape stDriver [("http://[", envDead), ("https://example.com/a", envDead)] =
      Except.error "Invalid IPv6 URL" ∧
    ¬ ∃ results, batch_scrape stDriver
        [("http://[", envDead), ("https://example.com/a", envDead)] =
          Except.ok results := by
  refine ⟨rfl, ?_⟩
  rintro ⟨results, hr⟩
  have h2 : (Except.ok results : Except String (List ScrapeResult)) =
      Except.error "Invalid IPv6 URL" := by
    rw [← hr]
    rfl
  exact absurd h2 (by simp)

/-- Claim C5, amended: the API level batch endpoint (at most 20 URLs)
returns one entry per URL, aligned by index and each depending only on
its own URL, converting a raised pipeline exception into a failure entry
at its index; the engine level batch_scrape preserves length and index
correspondence when every scrape_job call returns, but a raised exception
aborts it (the counterexample). -/
theorem c5_amended (st : ScraperState) (jobs : List (String × Env)) :
    (jobs.length ≤ 20 →
      ∃ entries, batch_scrape_jobs st jobs = Except.ok entries ∧
        entries.length = jobs.length ∧
        ∀ i : Nat, entries[i]? = (jobs[i]?).map (processSingle st)) ∧
    ((∀ job ∈ jobs, ∃ r, scrape_job st job.2 job.1 = Except.ok r) →
      ∃ results, batch_scrape st jobs = Except.ok results ∧
        results.length = jobs.length ∧
        ∀ i : Nat, results[i]? =
          (jobs[i]?).bind (fun job => (scrape_job st job.2 job.1).toOption)) := by
  constructor
  · intro hle
    refine ⟨jobs.map (processSingle st), ?_, by simp, ?_⟩
    · unfold batch_scrape_jobs
      rw [if_neg (by omega)]
    · intro i
      simp [List.getElem?_map]
  · intro hok
    induction jobs with
    | nil => exact ⟨[], rfl, rfl, fun i => by simp⟩
    | cons job rest ih =>
      obtain ⟨r, hr⟩ := hok job (by simp)
      obtain ⟨rs, hrs, hlen, hidx⟩ := ih (fun j hj => hok j (by simp [hj]))
      refine ⟨r :: rs, ?_, by simp [hlen], ?_⟩
      · simp [batch_scrape, hr, hrs]
      · intro i
        cases i with
        | zero => simp [hr, Except.toOption]
        | succ n => simpa using hidx n

/-- Claim C5, witness: the amended theorem applied to a one element
batch. -/
theorem c5_witness :
    (∃ entries, batch_scrape_jobs stDriver [jobW] = Except.ok entries ∧
        entries.length = [jobW].length ∧
        ∀ i : Nat, entries[i]? = ([jobW][i]?).map (processSingle stDriver)) ∧
    (∃ results, batch_scrape stDriver [jobW] = Except.ok results ∧
        results.length = [jobW].length ∧
        ∀ i : Nat, results[i]? =
          ([jobW][i]?).bind (fun job => (scrape_job stDriver job.2 job.1).toOption)) :=
  ⟨(c5_amended stDriver [jobW]).1 (by simp),
   (c5_amended stDriver [jobW]).2 (by
      intro job hj
      simp only [List.mem_singleton] at hj
      subst hj
      exact ⟨_, rfl⟩)⟩

/-! ## Claim C6 -/

/-- Claim C6, counterexample: scrape_job calls detect_portal outside any
try block, so the ValueError raised by urlparse on a malformed URL
propagates out of the top level scrape operation. -/
theorem c6_counterexample :
    scrape_job stDriver envDead "http://[" = Except.error "Invalid IPv6 URL" ∧
    ¬ ∃ r, scrape_job stDriver envDead "http://[" = Except.ok r := by
  refine ⟨rfl, ?_⟩
  rintro ⟨r, hr⟩
  have h2 : (Except.ok r : Except String ScrapeResult) =
      Except.error "Invalid IPv6 URL" := by
    rw [← hr]
    rfl
  exact absurd h2 (by simp)

/-- Claim C6, amended: for every URL whose authority parses, scrape_job
returns a result object and never raises, whatever the state of the
driver, the navigation and the network; only the urlparse ValueError of
the counterexample escapes. -/
theorem c6_amended (st : ScraperState) (env : Env) (url netloc : String)
    (h : urlparseNetloc url = Except.ok netloc) :
    ∃ r, scrape_job st env url = Except.ok r := by
  obtain ⟨portal, hp⟩ := detect_portal_isOk url netloc h
  by_cases hc : (st.use_selenium &&
      (portal == "pracuj" || portal == "nofluff" || portal == "justjoin")) = true
  · by_cases hs : (scrape_with_selenium st env url portal).success = true
    · exact ⟨scrape_with_selenium st env url portal, by simp [scrape_job, hp, hc, hs]⟩
    · exact ⟨scrape_with_requests env.fetch url portal, by simp [scrape_job, hp, hc, hs]⟩
  · exact ⟨scrape_with_requests env.fetch url portal, by simp [scrape_job, hp, hc]⟩

/-- Claim C6, witness: the amended theorem applied to a URL of an unknown
portal with a dead network. -/
theorem c6_witness : ∃ r, scrape_job stDriver envDead "https://example.com/x" = Except.ok r :=
  c6_amended stDriver envDead "https://example.com/x" "example.com" (by rfl)

/-! ## Claim C7 -/

/-- Claim C7, counterexample: the pracuj strategy returns success true
with the sentinel title N/A when no title element exists, instead of the
claimed success false. -/
theorem c7_counterexample :
    (scrape_pracuj_selenium emptyPage "http://p").success = true ∧
    (scrape_pracuj_selenium emptyPage "http://p").title = some "N/A" :=
  ⟨rfl, rfl⟩

/-- Claim C7, amended: strategy failure comes from raised exceptions, not
from the title sentinel: the nofluff strategy fails with an error when
its title element is missing (its unguarded wait raises), while the
pracuj strategy and the generic extractor always report success, with
title N/A when no title was found (the counterexample). -/
theorem c7_amended (page : Page) (curl url portal : String) :
    ((page.elems nofluffTitleSelector) = [] →
      (scrape_nofluff_selenium page curl).success = false ∧
      (scrape_nofluff_selenium page curl).error.isSome = true) ∧
    (scrape_pracuj_selenium page curl).success = true ∧
    (extract_generic_info page url portal).success = true := by
  refine ⟨?_, scrape_pracuj_selenium_success page curl,
    extract_generic_info_success page url portal⟩
  intro h
  have hh : (page.elems nofluffTitleSelector).head? = none := by simp [h]
  constructor
  · simp [scrape_nofluff_selenium, hh]
  · simp [scrape_nofluff_selenium, hh]

/-- Claim C7, witness: the amended theorem applied to a page with no
elements. -/
theorem c7_witness :
    (scrape_nofluff_selenium emptyPage "cu").success = false ∧
    (scrape_nofluff_selenium emptyPage "cu").error.isSome = true :=
  (c7_amended emptyPage "cu" "u" "p").1 (by rfl)

/-! ## Claim C8 -/

/-- Claim C8, confirmed: when driver creation fails with rendering
requested, the constructor resets use_selenium, so scrape_job goes
straight to the requests path, and when the static fetch succeeds on a
page whose first h1 has non-empty text the result is success true with
that title. -/
theorem c8_confirmed (msg : String) (nav : Except String Page) (curl : String)
    (page : Page) (url netloc t : String)
    (hparse : urlparseNetloc url = Except.ok netloc)
    (hh1 : (page.elems "h1").head? = some t)
    (ht : pyStrip t ≠ "") :
    ∃ r, scrape_job (init_scraper true (Except.error msg))
        ⟨nav, curl, Except.ok page⟩ url = Except.ok r ∧
      r.success = true ∧ r.title = some (pyStrip t) := by
  obtain ⟨portal, hp⟩ := detect_portal_isOk url netloc hparse
  refine ⟨extract_generic_info page url portal, ?_,
    extract_generic_info_success page url portal, ?_⟩
  · simp [scrape_job, init_scraper, hp, scrape_with_requests]
  · simp [extract_generic_info, genericTitleSelectors, firstNonEmptySelect, hh1, ht]

/-- Claim C8, witness: the confirmed theorem applied to a failed driver
start and a static page with an h1 title. -/
theorem c8_witness :
    ∃ r, scrape_job (init_scraper true (Except.error "chromedriver missing"))
        ⟨Except.error "unused", "cu", Except.ok pageH1⟩ "https://example.com/job" =
          Except.ok r ∧
      r.success = true ∧ r.title = some (pyStrip "Senior Python Developer") :=
  c8_confirmed "chromedriver missing" (Except.error "unused") "cu" pageH1
    "https://example.com/job" "example.com" "Senior Python Developer"
    (by rfl) (by rfl) (by decide)

/-! ## Claim C9 -/

/-- Claim C9, counterexample: the item filter of _extract_list_items
accepts any text longer than 5 characters, so a six character bullet is
accepted, refuting the claimed 10 to 200 bound. -/
theorem c9_counterexample :
    extract_list_items pageSixChar pracujReqSelectors = ["abcdef"] ∧
    ("abcdef" : String).length < 10 := by decide

/-- Claim C9, amended: list field extraction returns exactly the items of
the first selector group that yields any (truncated to 10), never
consulting later groups, and every accepted text has length strictly
between 5 and 200 (six character bullets pass, as the counterexample
shows, so the bound is 6 to 199, not 10 to 200). -/
theorem c9_amended (page : Page) (sels : List String) :
    extract_list_items page sels =
      (((sels.map (selItems page)).filter (fun l => !l.isEmpty)).headD []).take 10 ∧
    ∀ t, t ∈ extract_list_items page sels → 5 < t.length ∧ t.length < 200 := by
  constructor
  · unfold extract_list_items
    rw [extractListItemsLoop_nil_eq]
  · intro t ht
    have h1 : t ∈ extractListItemsLoop page [] sels := List.mem_of_mem_take ht
    have h2 := mem_extractListItemsLoop page sels [] t (by simp) h1
    simp only [itemFilter, decide_eq_true_eq] at h2
    exact ⟨h2.2.1, h2.2.2⟩

/-- Claim C9, witness: the amended theorem applied to the six character
page. -/
theorem c9_witness :
    (extract_list_items pageSixChar pracujReqSelectors =
      (((pracujReqSelectors.map (selItems pageSixChar)).filter
          (fun l => !l.isEmpty)).headD []).take 10) ∧
    (5 < ("abcdef" : String).length ∧ ("abcdef" : String).length < 200) :=
  ⟨(c9_amended pageSixChar pracujReqSelectors).1,
   (c9_amended pageSixChar pracujReqSelectors).2 "abcdef" (by decide)⟩

/-! ## Claim C10 -/

/-- Claim C10, confirmed: the justjoin selenium branch always fails (the
dispatched method does not exist, the AttributeError is caught into a
failure dict), so for every URL classified as justjoin the scrape_job
result is exactly the requests path result. -/
theorem c10_confirmed (st : ScraperState) (env : Env) (url : String) :
    (scrape_with_selenium st env url "justjoin").success = false ∧
    (detect_portal url = Except.ok "justjoin" →
      scrape_job st env url = Except.ok (scrape_with_requests env.fetch url "justjoin")) := by
  obtain ⟨us, dr⟩ := st
  obtain ⟨nav, curl, fetch⟩ := env
  have hsel : (scrape_with_selenium ⟨us, dr⟩ ⟨nav, curl, fetch⟩ url "justjoin").success = false := by
    cases dr with
    | none => rfl
    | some d =>
      cases nav with
      | error m => rfl
      | ok page => rfl
  refine ⟨hsel, ?_⟩
  intro hd
  cases us with
  | false => simp [scrape_job, hd]
  | true => simp [scrape_job, hd, hsel]

/-- Claim C10, witness: the confirmed theorem applied to a justjoin URL
with a live driver. -/
theorem c10_witness :
    scrape_job stDriver envDead "https://justjoin.it/offers/x" =
      Except.ok (scrape_with_requests envDead.fetch "https://justjoin.it/offers/x" "justjoin") :=
  (c10_confirmed stDriver envDead "https://justjoin.it/offers/x").2 (by rfl)

end Scraper

example : Scraper.extract_experience_level "" = "Unknown" := by decide

example : Scraper.extract_experience_level "Senior and junior welcome" = "Senior" := by decide

example : Scraper.detect_portal "https://justjoin.it/offers/x" = Except.ok "justjoin" := by rfl

example : Scraper.detect_portal "http://[" = Except.error "Invalid IPv6 URL" := by rfl

example : Scraper.detect_portal "https://example.com/job" = Except.ok "unknown" := by rfl

example :
    Scraper.extract_requirements_from_text
      "Requirements: 5+ years Python experience, Docker container skills, AWS cloud experience\n\nWe offer money" =
    ["5+ years Python experience", "Docker container skills", "AWS cloud experience"] := by
  rfl

example :
    Scraper.extract_skills_from_text "We use Python and Docker daily" =
    ["Python", "Docker"] := by rfl
